import Mathlib

/-!
Verification of the Arduino sketches in `Lab1_template.ino`: a
serial-command-driven LED controller and two IMU (accelerometer)
serial-streaming programs.  The definitions below are a shallow embedding of
the sketches: the C `unsigned long` tick arithmetic is modelled by natural
numbers reduced modulo `2 ^ 32`, the serial line is modelled as an optional
raw input string per loop iteration together with the list of lines the
iteration prints, and the digital output latch of `LED_BUILTIN` is a boolean
(`true` = `HIGH`).
-/

namespace Lab1

/-- Number of values of the 32-bit `unsigned long` type used by `millis()`
and `previousMillis`. -/
def U32 : Nat := 2 ^ 32

/-- `#define OFF 0` -/
def OFF : Int := 0

/-- `#define ON 1` -/
def ON : Int := 1

/-- `#define BLINK 2` -/
def BLINK : Int := 2

/-- `const long blinkInterval = 1000;` — the value is non-negative, so the
`unsigned long` the C comparison promotes it to is the same number. -/
def blinkInterval : Nat := 1000

/-- The characters `isspace` accepts, which `String::trim` on Arduino strips
from both ends: space, tab, newline, carriage return, vertical tab, form
feed. -/
def isSpaceChar (c : Char) : Bool :=
  c = ' ' || c = '\t' || c = '\n' || c = '\r' || c = Char.ofNat 11 || c = Char.ofNat 12

/-- `command.trim()`: remove leading and trailing whitespace. -/
def trimString (s : String) : String :=
  String.mk (((s.data.dropWhile isSpaceChar).reverse.dropWhile isSpaceChar).reverse)

/-- The persistent state of the LED-controller sketch: the global
`ledState`, the output latch of `LED_BUILTIN` (`true` = `HIGH`, read back by
`digitalRead`), and the global `previousMillis`. -/
structure LedCtrl where
  ledState : Int
  pin : Bool
  previousMillis : Nat
  deriving Repr, DecidableEq

/-- 32-bit unsigned subtraction `a - b` as C computes it on `unsigned long`
operands. -/
def usub32 (a b : Nat) : Nat := (a % U32 + U32 - b % U32) % U32

/-- `setup()` of the LED controller: the pin is driven `LOW`, the globals
keep their initialisers (`ledState = OFF`, `previousMillis = 0`), and the
welcome message is printed. -/
def ledSetup : LedCtrl × List String :=
  (⟨OFF, false, 0⟩, ["Arduino ready for commands (on, off, blink, status)"])

/-- The serial-command half of `loop()` (lines 40–66): trim the received
line and dispatch on it, returning the new state and the printed lines. -/
def commandStep (s : LedCtrl) (raw : String) : LedCtrl × List String :=
  let command := trimString raw
  if command = "on" then
    ({ s with ledState := ON, pin := true }, ["LED on"])
  else if command = "off" then
    ({ s with ledState := OFF, pin := false }, ["LED off"])
  else if command = "blink" then
    ({ s with ledState := BLINK }, ["LED blink"])
  else if command = "status" then
    (s, if s.ledState = ON then ["LED on"]
        else if s.ledState = OFF then ["LED off"]
        else if s.ledState = BLINK then ["LED blink"]
        else [])
  else
    (s, ["Unknown command. Use: on, off, blink, or status"])

/-- The blink half of `loop()` (lines 69–81): when in `BLINK` mode and the
unsigned tick difference has reached `blinkInterval`, record the tick and
toggle the pin.  `ms` is the value `millis()` returns this iteration,
reduced modulo `2 ^ 32` as the hardware counter is.  The function is total:
an iteration completes whether or not the interval has elapsed. -/
def blinkStep (s : LedCtrl) (ms : Nat) : LedCtrl :=
  if s.ledState = BLINK then
    let currentMillis := ms % U32
    if blinkInterval ≤ usub32 currentMillis s.previousMillis then
      { s with previousMillis := currentMillis, pin := !s.pin }
    else s
  else s

/-- One iteration of the LED controller's `loop()`: `line` is the raw text
`readStringUntil` returns when `Serial.available() > 0`, `none` when no
input is pending; `ms` is this iteration's `millis()` reading. -/
def ledLoop (s : LedCtrl) (line : Option String) (ms : Nat) : LedCtrl × List String :=
  match line with
  | none => (blinkStep s ms, [])
  | some raw =>
      let r := commandStep s raw
      (blinkStep r.1 ms, r.2)

/-- The states the LED controller can reach: the state `setup()` leaves, and
anything one further `loop()` iteration produces. -/
inductive LedReachable : LedCtrl → Prop where
  | init : LedReachable ledSetup.1
  | step (s : LedCtrl) (line : Option String) (ms : Nat) :
      LedReachable s → LedReachable (ledLoop s line ms).1

/-- The controller's state invariant: `ledState` is one of the three defined
constants, the pin is `HIGH` whenever the state is `ON` and `LOW` whenever
it is `OFF`. -/
def LedInv (s : LedCtrl) : Prop :=
  (s.ledState = OFF ∨ s.ledState = ON ∨ s.ledState = BLINK) ∧
  (s.ledState = ON → s.pin = true) ∧
  (s.ledState = OFF → s.pin = false)

/-- One polled iteration's inputs for an IMU sketch: whether
`IMU.accelerationAvailable()` reports a fresh sample, and the three axis
values `IMU.readAcceleration` would store into `x`, `y`, `z`.  The axis
values stay abstract in the type `α` (the hardware floats), and a function
`α → String` stands for the Arduino library's 4-decimal-place rendering
performed by `Serial.print(v, 4)`. -/
structure ImuIter (α : Type) where
  avail : Bool
  x : α
  y : α
  z : α
  deriving Repr, DecidableEq

/-- `loop()` of the first IMU sketch (the `Serial.begin(115200)` variant):
the text the iteration writes to serial, `p4` being the library's
4-decimal-place rendering of one axis value.  `println` terminates the line
with `"\r\n"`.  The trailing `delay(100)` changes no program state. -/
def imuLoopA {α : Type} (p4 : α → String) (it : ImuIter α) : String :=
  if it.avail then p4 it.x ++ "," ++ p4 it.y ++ "," ++ p4 it.z ++ "\r\n" else ""

/-- `loop()` of the second IMU sketch (the `Serial.begin(9600)` variant). -/
def imuLoopB {α : Type} (p4 : α → String) (it : ImuIter α) : String :=
  if it.avail then p4 it.x ++ "," ++ p4 it.y ++ "," ++ p4 it.z ++ "\r\n" else ""

/-- `delay(100)` at the end of the first IMU sketch's loop, milliseconds. -/
def imuDelayA : Nat := 100

/-- `delay(100)` at the end of the second IMU sketch's loop, milliseconds. -/
def imuDelayB : Nat := 100

/-- What `setup()` of an IMU sketch leaves behind: the configured baud rate,
whether it fell into the `while (1);` halt, and the text it printed. -/
structure ImuSetup where
  baud : Nat
  halted : Bool
  printed : String
  deriving Repr, DecidableEq

/-- `setup()` of the first IMU sketch: baud 115200; when `IMU.begin()`
fails it prints the failure line and halts forever. -/
def imuSetupA (beginOk : Bool) : ImuSetup :=
  if beginOk then { baud := 115200, halted := false, printed := "" }
  else { baud := 115200, halted := true, printed := "Failed to initialize IMU!\r\n" }

/-- `setup()` of the second IMU sketch: baud 9600, otherwise the same. -/
def imuSetupB (beginOk : Bool) : ImuSetup :=
  if beginOk then { baud := 9600, halted := false, printed := "" }
  else { baud := 9600, halted := true, printed := "Failed to initialize IMU!\r\n" }

/-- The whole serial output of the first IMU sketch over a list of loop
iterations: nothing beyond the failure line when `IMU.begin()` failed
(`loop()` is never reached, the program stays in `while (1);`), otherwise
the concatenation of the iterations' output. -/
def imuRunA {α : Type} (p4 : α → String) (beginOk : Bool) (iters : List (ImuIter α)) : String :=
  let st := imuSetupA beginOk
  if st.halted then st.printed
  else st.printed ++ String.join (iters.map (imuLoopA p4))

/-- The whole serial output of the second IMU sketch, likewise. -/
def imuRunB {α : Type} (p4 : α → String) (beginOk : Bool) (iters : List (ImuIter α)) : String :=
  let st := imuSetupB beginOk
  if st.halted then st.printed
  else st.printed ++ String.join (iters.map (imuLoopB p4))

/-! ## Helper lemmas -/

theorem dropWhile_append_sat {α : Type} (p : α → Bool) (A B : List α)
    (h : ∀ a ∈ A, p a = true) : (A ++ B).dropWhile p = B.dropWhile p := by
  induction A with
  | nil => simp
  | cons a t ih =>
      simp only [List.cons_append, List.dropWhile_cons]
      rw [h a (by simp)]
      simp [ih fun x hx => h x (by simp [hx])]

theorem dropWhile_append_ne {α : Type} (p : α → Bool) (t B : List α)
    (h : t.dropWhile p ≠ []) : (t ++ B).dropWhile p = t.dropWhile p ++ B := by
  induction t with
  | nil => simp at h
  | cons a u ih =>
      by_cases hp : p a = true
      · simp only [List.cons_append, List.dropWhile_cons, hp, if_true]
        exact ih (by simpa [List.dropWhile_cons, hp] using h)
      · simp [List.dropWhile_cons, hp]

/-- Surrounding whitespace does not change the trimmed command. -/
theorem trim_append (ws1 ws2 : List Char) (t : String)
    (h1 : ∀ c ∈ ws1, isSpaceChar c = true) (h2 : ∀ c ∈ ws2, isSpaceChar c = true) :
    trimString (String.mk (ws1 ++ t.data ++ ws2)) = trimString t := by
  unfold trimString
  simp only [List.append_assoc]
  rw [dropWhile_append_sat isSpaceChar ws1 _ h1]
  by_cases hv : t.data.dropWhile isSpaceChar = []
  · have ht : ∀ c ∈ t.data, isSpaceChar c = true := List.dropWhile_eq_nil_iff.mp hv
    rw [dropWhile_append_sat isSpaceChar t.data ws2 ht, hv,
      List.dropWhile_eq_nil_iff.mpr fun a ha => h2 a ha]
  · rw [dropWhile_append_ne isSpaceChar t.data ws2 hv, List.reverse_append,
      dropWhile_append_sat isSpaceChar ws2.reverse _
        (fun c hc => h2 c (by simpa using hc))]

theorem ledInv_commandStep (s : LedCtrl) (raw : String) (h : LedInv s) :
    LedInv (commandStep s raw).1 := by
  by_cases h1 : trimString raw = "on"
  · simp [commandStep, h1, LedInv, ON, OFF, BLINK]
  by_cases h2 : trimString raw = "off"
  · simp [commandStep, h1, h2, LedInv, ON, OFF, BLINK]
  by_cases h3 : trimString raw = "blink"
  · simp_all [commandStep, h1, h2, h3, LedInv, ON, OFF, BLINK]
  by_cases h4 : trimString raw = "status"
  · simpa [commandStep, h1, h2, h3, h4] using h
  · simpa [commandStep, h1, h2, h3, h4] using h

theorem ledInv_blinkStep (s : LedCtrl) (ms : Nat) (h : LedInv s) :
    LedInv (blinkStep s ms) := by
  by_cases hb : s.ledState = BLINK
  · by_cases ht : blinkInterval ≤ usub32 (ms % U32) s.previousMillis
    · simp_all [blinkStep, hb, ht, LedInv, ON, OFF, BLINK]
    · simpa [blinkStep, hb, ht] using h
  · simpa [blinkStep, hb] using h

theorem ledInv_loop (s : LedCtrl) (line : Option String) (ms : Nat) (h : LedInv s) :
    LedInv (ledLoop s line ms).1 := by
  cases line with
  | none => exact ledInv_blinkStep s ms h
  | some raw => exact ledInv_blinkStep _ ms (ledInv_commandStep s raw h)

/-- Every reachable state of the LED controller satisfies the invariant. -/
theorem ledInv_reachable (s : LedCtrl) (h : LedReachable s) : LedInv s := by
  induction h with
  | init => simp [ledSetup, LedInv, OFF, ON, BLINK]
  | step s line ms _ ih => exact ledInv_loop s line ms ih

theorem reachable_on : LedReachable ⟨ON, true, 0⟩ := by
  have h := LedReachable.step ledSetup.1 (some "on") 0 LedReachable.init
  have e : (ledLoop ledSetup.1 (some "on") 0).1 = ⟨ON, true, 0⟩ := by decide
  rwa [e] at h

theorem reachable_blink_low : LedReachable ⟨BLINK, false, 0⟩ := by
  have h := LedReachable.step ledSetup.1 (some "blink") 0 LedReachable.init
  have e : (ledLoop ledSetup.1 (some "blink") 0).1 = ⟨BLINK, false, 0⟩ := by decide
  rwa [e] at h

theorem reachable_blink_high : LedReachable ⟨BLINK, true, 0⟩ := by
  have h := LedReachable.step ⟨ON, true, 0⟩ (some "blink") 0 reachable_on
  have e : (ledLoop ⟨ON, true, 0⟩ (some "blink") 0).1 = ⟨BLINK, true, 0⟩ := by decide
  rwa [e] at h

/-! ## Claim theorems -/

/-- C1: a received `"on"` token leaves the iteration with state `ON` and the
pin driven `HIGH`, `"off"` with state `OFF` and the pin `LOW`, and `"blink"`
with state `BLINK` (the pin thereafter being driven by the blink half of the
loop). -/
theorem cmd_token_drives_state (s : LedCtrl) (ms : Nat) :
    (ledLoop s (some "on") ms).1.ledState = ON ∧
    (ledLoop s (some "on") ms).1.pin = true ∧
    (ledLoop s (some "on") ms).2 = ["LED on"] ∧
    (ledLoop s (some "off") ms).1.ledState = OFF ∧
    (ledLoop s (some "off") ms).1.pin = false ∧
    (ledLoop s (some "off") ms).2 = ["LED off"] ∧
    (ledLoop s (some "blink") ms).1.ledState = BLINK ∧
    (ledLoop s (some "blink") ms).2 = ["LED blink"] := by
  refine ⟨?_, ?_, ?_, ?_, ?_, ?_, ?_, ?_⟩ <;>
    simp [ledLoop, commandStep, blinkStep, trimString, isSpaceChar, ON, OFF, BLINK,
      apply_ite LedCtrl.ledState]

/-- C2: in `BLINK` mode the blink half of the loop toggles the pin exactly
when the unsigned 32-bit difference between the current tick and the
last-toggle tick has reached `blinkInterval` (1000 ms), recording the
current tick when it toggles; outside `BLINK` mode it changes nothing.  The
step is a total function of the state and the tick, so the iteration
completes whether or not the interval has elapsed. -/
theorem blink_toggle_iff (s : LedCtrl) (ms : Nat) :
    (s.ledState = BLINK →
      (blinkInterval ≤ usub32 (ms % U32) s.previousMillis →
        blinkStep s ms = { s with pin := !s.pin, previousMillis := ms % U32 }) ∧
      (usub32 (ms % U32) s.previousMillis < blinkInterval →
        blinkStep s ms = s)) ∧
    (s.ledState ≠ BLINK → blinkStep s ms = s) ∧
    ledLoop s none ms = (blinkStep s ms, []) := by
  refine ⟨fun hb => ⟨fun ht => ?_, fun ht => ?_⟩, fun hb => ?_, rfl⟩
  · simp [blinkStep, hb, ht]
  · simp [blinkStep, hb, Nat.not_le.mpr ht]
  · simp [blinkStep, hb]

/-- C3: an IMU loop iteration with a fresh sample writes the three axis
values comma-separated, the third followed by the line terminator; an
iteration without a fresh sample writes nothing. -/
theorem imu_sample_output {α : Type} (p4 : α → String) (x y z : α) :
    imuLoopA p4 ⟨true, x, y, z⟩ = p4 x ++ "," ++ p4 y ++ "," ++ p4 z ++ "\r\n" ∧
    imuLoopA p4 ⟨false, x, y, z⟩ = "" ∧
    imuLoopB p4 ⟨true, x, y, z⟩ = p4 x ++ "," ++ p4 y ++ "," ++ p4 z ++ "\r\n" ∧
    imuLoopB p4 ⟨false, x, y, z⟩ = "" :=
  ⟨rfl, rfl, rfl, rfl⟩

/-- C4: when `IMU.begin()` fails, `setup()` prints the failure line and
halts, so the whole serial output over any number of loop iterations is
exactly that line and no axis reading is ever written; when it succeeds,
`setup()` terminates without halting and the output is the polling loop's. -/
theorem imu_fatal_halt {α : Type} (p4 : α → String) (iters : List (ImuIter α)) :
    (imuSetupA false).halted = true ∧
    (imuSetupA false).printed = "Failed to initialize IMU!\r\n" ∧
    imuRunA p4 false iters = "Failed to initialize IMU!\r\n" ∧
    (imuSetupA true).halted = false ∧
    imuRunA p4 true iters = String.join (iters.map (imuLoopA p4)) ∧
    (imuSetupB false).halted = true ∧
    imuRunB p4 false iters = "Failed to initialize IMU!\r\n" ∧
    (imuSetupB true).halted = false ∧
    imuRunB p4 true iters = String.join (iters.map (imuLoopB p4)) := by
  refine ⟨rfl, rfl, rfl, rfl, ?_, rfl, rfl, rfl, ?_⟩ <;>
    simp [imuRunA, imuRunB, imuSetupA, imuSetupB]

/-- C5: in every reachable state, the `"status"` command prints exactly the
message the command that established the current state printed: the
`"on"` command's for `ON`, the `"off"` command's for `OFF`, the `"blink"`
command's for `BLINK`; some message is always printed. -/
theorem status_echoes_state (s s0 : LedCtrl) (ms ms0 : Nat) (h : LedReachable s) :
    (s.ledState = ON →
      (ledLoop s (some "status") ms).2 = (ledLoop s0 (some "on") ms0).2) ∧
    (s.ledState = OFF →
      (ledLoop s (some "status") ms).2 = (ledLoop s0 (some "off") ms0).2) ∧
    (s.ledState = BLINK →
      (ledLoop s (some "status") ms).2 = (ledLoop s0 (some "blink") ms0).2) ∧
    (ledLoop s (some "status") ms).2 ≠ [] := by
  have hinv := ledInv_reachable s h
  have hout : (ledLoop s (some "status") ms).2 =
      (if s.ledState = ON then ["LED on"]
       else if s.ledState = OFF then ["LED off"]
       else if s.ledState = BLINK then ["LED blink"] else []) := by
    simp [ledLoop, commandStep, trimString, isSpaceChar]
  refine ⟨fun h1 => ?_, fun h1 => ?_, fun h1 => ?_, ?_⟩
  · rw [hout]
    simp [h1, ledLoop, commandStep, trimString, isSpaceChar, ON, OFF, BLINK]
  · rw [hout]
    simp [h1, ledLoop, commandStep, trimString, isSpaceChar, ON, OFF, BLINK]
  · rw [hout]
    simp [h1, ledLoop, commandStep, trimString, isSpaceChar, ON, OFF, BLINK]
  · rcases hinv.1 with h1 | h1 | h1 <;> rw [hout] <;>
      simp [h1, ON, OFF, BLINK]

/-- Witness for C5 at the concrete initial state, whose `ledState` is
`OFF`. -/
theorem status_echoes_state_witness :
    (ledLoop ledSetup.1 (some "status") 0).2 = ["LED off"] := by
  have h := (status_echoes_state ledSetup.1 ledSetup.1 0 0 LedReachable.init).2.1 (by decide)
  rw [h]
  decide

/-- C6 counterexample: there are no four pairwise-distinct values the
`ledState` variable reaches; it only ever holds `OFF`, `ON` or `BLINK`. -/
theorem led_not_four_states :
    (∃ a b c d : Int, a ≠ b ∧ a ≠ c ∧ a ≠ d ∧ b ≠ c ∧ b ≠ d ∧ c ≠ d ∧
      (∃ s, LedReachable s ∧ s.ledState = a) ∧
      (∃ s, LedReachable s ∧ s.ledState = b) ∧
      (∃ s, LedReachable s ∧ s.ledState = c) ∧
      (∃ s, LedReachable s ∧ s.ledState = d)) ↔ False := by
  simp only [iff_false]
  rintro ⟨a, b, c, d, hab, hac, had, hbc, hbd, hcd,
    ⟨sa, hra, rfl⟩, ⟨sb, hrb, rfl⟩, ⟨sc, hrc, rfl⟩, ⟨sd, hrd, rfl⟩⟩
  have ha := (ledInv_reachable sa hra).1
  have hb := (ledInv_reachable sb hrb).1
  have hc := (ledInv_reachable sc hrc).1
  have hd := (ledInv_reachable sd hrd).1
  simp only [OFF, ON, BLINK] at ha hb hc hd
  rcases ha with h | h | h <;> rcases hb with h' | h' | h' <;>
    rcases hc with h'' | h'' | h'' <;> rcases hd with h''' | h''' | h''' <;>
    omega

/-- C6 (amended): the `ledState` variable ranges over exactly the three
distinct values `OFF`, `ON`, `BLINK`; the combined configuration of the
state variable and the output pin ranges over exactly four reachable
states — `(OFF, LOW)`, `(ON, HIGH)`, `(BLINK, LOW)`, `(BLINK, HIGH)`. -/
theorem led_exactly_three_states :
    (∃ s, LedReachable s ∧ s.ledState = OFF) ∧
    (∃ s, LedReachable s ∧ s.ledState = ON) ∧
    (∃ s, LedReachable s ∧ s.ledState = BLINK) ∧
    (∀ s, LedReachable s →
      s.ledState = OFF ∨ s.ledState = ON ∨ s.ledState = BLINK) ∧
    (∃ s, LedReachable s ∧ s.ledState = BLINK ∧ s.pin = false) ∧
    (∃ s, LedReachable s ∧ s.ledState = BLINK ∧ s.pin = true) ∧
    (∀ s, LedReachable s →
      (s.ledState = OFF ∧ s.pin = false) ∨ (s.ledState = ON ∧ s.pin = true) ∨
      (s.ledState = BLINK ∧ s.pin = false) ∨ (s.ledState = BLINK ∧ s.pin = true)) := by
  refine ⟨⟨ledSetup.1, LedReachable.init, rfl⟩,
    ⟨⟨ON, true, 0⟩, reachable_on, rfl⟩,
    ⟨⟨BLINK, false, 0⟩, reachable_blink_low, rfl⟩,
    fun s hs => (ledInv_reachable s hs).1,
    ⟨⟨BLINK, false, 0⟩, reachable_blink_low, rfl, rfl⟩,
    ⟨⟨BLINK, true, 0⟩, reachable_blink_high, rfl, rfl⟩,
    fun s hs => ?_⟩
  obtain ⟨h1, h2, h3⟩ := ledInv_reachable s hs
  rcases h1 with h | h | h
  · exact Or.inl ⟨h, h3 h⟩
  · exact Or.inr (Or.inl ⟨h, h2 h⟩)
  · cases hp : s.pin
    · exact Or.inr (Or.inr (Or.inl ⟨h, rfl⟩))
    · exact Or.inr (Or.inr (Or.inr ⟨h, rfl⟩))

/-- C7: the two IMU sketches' `loop()` functions are extensionally equal —
on the same sample-availability flag and axis readings they write the same
serial text (and neither changes any persistent state; both end with the
same `delay(100)`); their `setup()` functions agree on halting behaviour and
printed text and differ only in the configured baud rate, 115200 against
9600. -/
theorem imu_programs_near_identical {α : Type} (p4 : α → String)
    (it : ImuIter α) (ok : Bool) :
    imuLoopA p4 it = imuLoopB p4 it ∧
    imuDelayA = imuDelayB ∧
    (imuSetupA ok).halted = (imuSetupB ok).halted ∧
    (imuSetupA ok).printed = (imuSetupB ok).printed ∧
    (imuSetupA ok).baud = 115200 ∧
    (imuSetupB ok).baud = 9600 := by
  cases ok <;> exact ⟨rfl, rfl, rfl, rfl, rfl, rfl⟩

/-- C8: a received line whose trimmed form is none of the four commands
makes the dispatcher print the usage message and change nothing: the state
variable, the pin and the last-toggle tick all stay as they were, and the
iteration as a whole behaves exactly like an iteration that received no
input at all, apart from the message. -/
theorem unknown_command_no_effect (s : LedCtrl) (raw : String) (ms : Nat)
    (h1 : trimString raw ≠ "on") (h2 : trimString raw ≠ "off")
    (h3 : trimString raw ≠ "blink") (h4 : trimString raw ≠ "status") :
    commandStep s raw = (s, ["Unknown command. Use: on, off, blink, or status"]) ∧
    (ledLoop s (some raw) ms).1 = (ledLoop s none ms).1 := by
  have hc : commandStep s raw =
      (s, ["Unknown command. Use: on, off, blink, or status"]) := by
    simp [commandStep, h1, h2, h3, h4]
  exact ⟨hc, by simp [ledLoop, hc]⟩

/-- Witness for C8 at the concrete unknown token `"hello"`. -/
theorem unknown_command_no_effect_witness :
    commandStep ledSetup.1 "hello" =
      (ledSetup.1, ["Unknown command. Use: on, off, blink, or status"]) :=
  (unknown_command_no_effect ledSetup.1 "hello" 0
    (by decide) (by decide) (by decide) (by decide)).1

/-- C9: the invariant — `ledState` is one of `OFF`, `ON`, `BLINK`, the pin
is `HIGH` whenever the state is `ON` and `LOW` whenever it is `OFF` — holds
in the state `setup()` leaves (state `OFF`, pin `LOW`), is preserved by
every `loop()` iteration, and therefore holds in every reachable state. -/
theorem led_state_pin_invariant (s : LedCtrl) (h : LedReachable s) :
    LedInv ledSetup.1 ∧
    (∀ t : LedCtrl, ∀ line : Option String, ∀ ms : Nat,
      LedInv t → LedInv (ledLoop t line ms).1) ∧
    LedInv s :=
  ⟨by simp [LedInv, ledSetup, OFF, ON, BLINK],
   fun t line ms ht => ledInv_loop t line ms ht,
   ledInv_reachable s h⟩

/-- Witness for C9 at the concrete reachable state `⟨ON, HIGH, 0⟩`. -/
theorem led_state_pin_invariant_witness :
    LedInv ⟨ON, true, 0⟩ :=
  (led_state_pin_invariant ⟨ON, true, 0⟩ reachable_on).2.2

/-- C10: dispatch happens on the whitespace-trimmed line, so a token wrapped
in any leading and trailing whitespace behaves exactly like the bare token;
matching is otherwise exact and case-sensitive, so `"ON"` is an unknown
command. -/
theorem trim_before_match (s : LedCtrl) (ms : Nat) (ws1 ws2 : List Char)
    (t : String)
    (h1 : ∀ c ∈ ws1, isSpaceChar c = true) (h2 : ∀ c ∈ ws2, isSpaceChar c = true) :
    ledLoop s (some (String.mk (ws1 ++ t.data ++ ws2))) ms = ledLoop s (some t) ms ∧
    (ledLoop s (some "ON") ms).2 =
      ["Unknown command. Use: on, off, blink, or status"] := by
  constructor
  · have he : trimString (String.mk (ws1 ++ (t.data ++ ws2))) = trimString t := by
      rw [← List.append_assoc]
      exact trim_append ws1 ws2 t h1 h2
    simp [ledLoop, commandStep, he]
  · simp [ledLoop, commandStep, trimString, isSpaceChar]

/-- Witness for C10: a trailing carriage return on `"on"` behaves like the
bare token. -/
theorem trim_before_match_witness :
    ledLoop ledSetup.1 (some "on\r") 0 = ledLoop ledSetup.1 (some "on") 0 := by
  have h := (trim_before_match ledSetup.1 0 [] [Char.ofNat 13] "on"
    (by decide) (by decide)).1
  have e : String.mk ([] ++ "on".data ++ [Char.ofNat 13]) = "on\r" := by decide
  rwa [e] at h

end Lab1
